import Mathlib

/-!
# Verification of the PancakeSwap monitor (src/pancakeswap/monitor.py)

Shallow embedding of `PCSMonitor`.  Token identifiers are the string keys of
the API's `data` dict; token metadata is abstracted to the string that the
notification layer would format.  Wall-clock time (`time.time()`) is passed
in explicitly as a rational `now`; server timestamps (`updated_at`,
milliseconds) are integers, as in the JSON payloads.  Side effects
(Telegram messages, file writes, sleeps) are recorded as an `Event` trace;
`logging` calls that carry no claim-relevant data are not traced, except
error logs, which claims mention.  The external fetch (`PancakeSwapAPI
.tokens()` wrapped by `_request_data`) is modelled by a `FetchResult`
input: a successful payload, a `ConnectionError`, or an `HTTPError`.
-/

namespace PCS

/-- `API_UPDATE_INTERVAL = 300` (monitor.py line 11), in seconds. -/
def API_UPDATE_INTERVAL : ℚ := 300

/-- A fetched snapshot: `updated_at` (ms since epoch) and the token dict
`data`, embedded as an association list key ↦ metadata.  Python dict keys
are unique, but no theorem below needs that assumption. -/
structure ApiData where
  updated_at : Int
  data : List (String × String)
deriving DecidableEq

/-- Outcome of one call to `PancakeSwapAPI.tokens()`: success, a
`requests.ConnectionError`, or a `requests.HTTPError` with status/body. -/
inductive FetchResult where
  | ok (d : ApiData)
  | connectionError
  | httpError (status : Int) (text : String)
deriving DecidableEq

/-- The mutable fields of `PCSMonitor`.  `__init__` only assigns
`_prev_server_time = 0`; `_saved_token_time` / `_saved_token_address` are
created later by `_initiate_monitor` (both of its branches assign them), so
their values in `initialMonitorState` are placeholders. -/
structure MonitorState where
  prev_server_time : Int
  saved_token_time : Int
  saved_token_address : Finset String
deriving DecidableEq

/-- Observable side effects of the monitor, in program order.
`adminMsg t` stands for `send_message_to_admin` of the save-confirmation
text, which embeds `pcs_timestamp_to_str t` (the human-readable form of the
recorded `updated_at`); `userMsg s` for `send_message_to_users` of the
new-token text built from metadata `s`; `fileWrite t l` for the
`json.dump` of `{'updated_at': t, 'data': l}` opened with mode `w+`
(truncate + overwrite); `sleep q` for `time.sleep(q)` seconds;
`logError` for a `logger.error` call. -/
inductive Event where
  | userMsg (info : String)
  | adminMsg (updated_at : Int)
  | logError
  | fileWrite (updated_at : Int) (data : List String)
  | sleep (duration : ℚ)
deriving DecidableEq

/-- Parsed content of `.cache/pcs_token.json`:
`{'updated_at': <int>, 'data': [<string>, ...]}`. -/
structure LocalFile where
  updated_at : Int
  data : List String
deriving DecidableEq

/-- `PCSMonitor._request_data` (lines 55-66): returns the payload, or
`None` after logging on `ConnectionError` / `HTTPError`. -/
def requestData : FetchResult → Option ApiData × List Event
  | .ok d => (some d, [])
  | .connectionError => (none, [.logError])
  | .httpError _ _ => (none, [.logError])

/-- `PCSMonitor._get_new_tokens` (lines 68-78): walk the snapshot's keys in
order; each key absent from `_saved_token_address` is messaged to the users
and collected.  Returns the `newly_added_tokens` list and the messages. -/
def getNewTokens (saved : Finset String) :
    List (String × String) → List String × List Event
  | [] => ([], [])
  | kv :: rest =>
    if kv.1 ∈ saved then getNewTokens saved rest
    else
      let r := getNewTokens saved rest
      (kv.1 :: r.1, Event.userMsg kv.2 :: r.2)

/-- `PCSMonitor._save_to_local_database` (lines 109-113): dump
`{'updated_at': _saved_token_time, 'data': list(_saved_token_address)}`
over the file (mode `w+`), then notify the admin.  `list(set)` enumerates
the set in an unspecified order; we fix the ≤-sorted enumeration. -/
def saveToLocalDatabase (st : MonitorState) : List Event :=
  [Event.fileWrite st.saved_token_time (st.saved_token_address.sort (· ≤ ·)),
   Event.adminMsg st.saved_token_time]

/-- `PCSMonitor._handle_new_tokens` (lines 80-86): merge a non-empty delta
into `_saved_token_address` (`set.update`), record the server time, save. -/
def handleNewTokens (st : MonitorState) (tokens : List String)
    (server_time : Int) : MonitorState × List Event :=
  let st1 := if tokens = [] then st
    else { st with saved_token_address := st.saved_token_address ∪ tokens.toFinset }
  let st2 := { st1 with saved_token_time := server_time }
  (st2, saveToLocalDatabase st2)

/-- One iteration of the `while True` body of `PCSMonitor.start_monitor`
(lines 25-45).  `now` is the value `time.time()` would return in this
iteration; `fr` the outcome of the fetch. -/
def monitorStep (now : ℚ) (fr : FetchResult) (st : MonitorState) :
    MonitorState × List Event :=
  match requestData fr with
  | (none, evs) => (st, evs ++ [Event.sleep 1])
  | (some data, evs) =>
    let server_time := data.updated_at
    if server_time ≤ st.prev_server_time then
      let raw : ℚ := API_UPDATE_INTERVAL - now + (server_time : ℚ) / 1000
      let t_minus : ℚ := if raw < 0 then 1 else raw
      (st, evs ++ [Event.sleep t_minus])
    else
      let st1 := { st with prev_server_time := server_time }
      let r := getNewTokens st1.saved_token_address data.data
      let h := handleNewTokens st1 r.1 server_time
      (h.1, evs ++ r.2 ++ h.2)

/-- `PCSMonitor._force_update_local_database` (lines 97-107): fetch in a
loop, sleeping 10 s after each failure, until a snapshot succeeds; then
seed `_saved_token_time` / `_saved_token_address` from it and save.  The
unbounded Python loop is driven by the (finite) list of successive fetch
outcomes; `none` means that list was exhausted before any success. -/
def forceUpdateLocalDatabase (st : MonitorState) :
    List FetchResult → Option (MonitorState × List Event)
  | [] => none
  | fr :: rest =>
    match requestData fr with
    | (none, evs) =>
      match forceUpdateLocalDatabase st rest with
      | none => none
      | some r => some (r.1, evs ++ [Event.sleep 10] ++ r.2)
    | (some data, evs) =>
      let st1 := { st with saved_token_time := data.updated_at,
                           saved_token_address := (data.data.map Prod.fst).toFinset }
      some (st1, evs ++ saveToLocalDatabase st1)

/-- `PCSMonitor._read_local_database` (lines 88-95), faithfully including
its fall-through: when `time.time() - server_time > 86400000` it calls
`_force_update_local_database()`, but then (there is no `return`) still
assigns `_saved_token_time` / `_saved_token_address` from the file just
read, clobbering the refreshed values. -/
def readLocalDatabase (now : ℚ) (file : LocalFile)
    (fetches : List FetchResult) (st : MonitorState) :
    Option (MonitorState × List Event) :=
  let server_time := file.updated_at
  let forced : Option (MonitorState × List Event) :=
    if now - (server_time : ℚ) > 86400000 then
      forceUpdateLocalDatabase st fetches
    else some (st, [])
  forced.map fun r =>
    ({ r.1 with saved_token_time := server_time,
                saved_token_address := file.data.toFinset }, r.2)

/-- `PCSMonitor.__init__` (lines 19-23): `_prev_server_time = 0`; the two
saved fields do not exist yet in Python and hold placeholders here. -/
def initialMonitorState : MonitorState :=
  { prev_server_time := 0, saved_token_time := 0, saved_token_address := ∅ }

/-- `PCSMonitor._initiate_monitor` (lines 47-53): load the local database
if the file exists, otherwise force a full refresh.  `file` is the parsed
file when `os.path.exists` holds, `none` otherwise. -/
def initiateMonitor (now : ℚ) (file : Option LocalFile)
    (fetches : List FetchResult) : Option (MonitorState × List Event) :=
  match file with
  | some f => readLocalDatabase now f fetches initialMonitorState
  | none => forceUpdateLocalDatabase initialMonitorState fetches

/-- Recognizer for admin notifications in a trace. -/
def Event.isAdminMsg : Event → Bool
  | .adminMsg _ => true
  | _ => false

/-- Recognizer for per-token user notifications in a trace. -/
def Event.isUserMsg : Event → Bool
  | .userMsg _ => true
  | _ => false

/-- Recognizer for local-database writes in a trace. -/
def Event.isFileWrite : Event → Bool
  | .fileWrite _ _ => true
  | _ => false

/-- Content of the local database file after a trace runs against a file
system whose prior content is `fs`: each `fileWrite` (mode `w+`) replaces
the whole file. -/
def runFileSystem (fs : Option LocalFile) : List Event → Option LocalFile
  | [] => fs
  | Event.fileWrite t l :: rest => runFileSystem (some ⟨t, l⟩) rest
  | _ :: rest => runFileSystem fs rest

end PCS

namespace PCS

/-! ## Helper lemmas -/

/-- Membership in the `newly_added_tokens` list returned by
`_get_new_tokens`: exactly the snapshot keys absent from the known set. -/
lemma mem_getNewTokens_fst {saved : Finset String} {data : List (String × String)}
    {k : String} :
    k ∈ (getNewTokens saved data).1 ↔ k ∈ data.map Prod.fst ∧ k ∉ saved := by
  induction data with
  | nil => simp [getNewTokens]
  | cons kv rest ih =>
    by_cases h : kv.1 ∈ saved
    · simp only [getNewTokens, if_pos h, ih, List.map_cons, List.mem_cons]
      constructor
      · rintro ⟨hm, hns⟩
        exact ⟨Or.inr hm, hns⟩
      · rintro ⟨rfl | hm, hns⟩
        · exact absurd h hns
        · exact ⟨hm, hns⟩
    · simp only [getNewTokens, if_neg h, List.map_cons, List.mem_cons]
      constructor
      · rintro (rfl | hm)
        · exact ⟨Or.inl rfl, h⟩
        · exact ⟨Or.inr (ih.mp hm).1, (ih.mp hm).2⟩
      · rintro ⟨rfl | hm, hns⟩
        · exact Or.inl rfl
        · exact Or.inr (ih.mpr ⟨hm, hns⟩)

/-- If every snapshot key is already known, `_get_new_tokens` collects
nothing. -/
lemma getNewTokens_eq_nil {saved : Finset String} {data : List (String × String)}
    (h : ∀ kv ∈ data, kv.1 ∈ saved) : (getNewTokens saved data).1 = [] := by
  induction data with
  | nil => rfl
  | cons kv rest ih =>
    have hk : kv.1 ∈ saved := h kv (List.mem_cons_self kv rest)
    simp only [getNewTokens, if_pos hk]
    exact ih fun kv hm => h kv (List.mem_cons_of_mem _ hm)

end PCS

/-- C1: the delta computed by `_get_new_tokens` is exactly the snapshot's
key set minus the known-token set, and rerunning the diff after the delta
has been merged into the known set (as `_handle_new_tokens` does via
`set.update`) yields an empty delta. -/
theorem getNewTokens_diff_correct (saved : Finset String)
    (data : List (String × String)) :
    ((PCS.getNewTokens saved data).1.toFinset
        = (data.map Prod.fst).toFinset \ saved) ∧
    (PCS.getNewTokens (saved ∪ ((PCS.getNewTokens saved data).1).toFinset)
        data).1 = [] := by
  constructor
  · ext k
    simp only [List.mem_toFinset, Finset.mem_sdiff, PCS.mem_getNewTokens_fst]
  · refine PCS.getNewTokens_eq_nil fun kv hm => ?_
    by_cases h : kv.1 ∈ saved
    · exact Finset.mem_union_left _ h
    · refine Finset.mem_union_right _ ?_
      rw [List.mem_toFinset, PCS.mem_getNewTokens_fst]
      exact ⟨List.mem_map_of_mem Prod.fst hm, h⟩

namespace PCS

/-- Every side effect of `_get_new_tokens` is a user notification. -/
lemma getNewTokens_snd_userMsg {saved : Finset String}
    {data : List (String × String)} :
    ∀ e ∈ (getNewTokens saved data).2, ∃ s, e = Event.userMsg s := by
  induction data with
  | nil => simp [getNewTokens]
  | cons kv rest ih =>
    by_cases h : kv.1 ∈ saved
    · simpa only [getNewTokens, if_pos h] using ih
    · simp only [getNewTokens, if_neg h]
      rintro e he
      rcases List.mem_cons.mp he with rfl | he
      · exact ⟨kv.2, rfl⟩
      · exact ih e he

/-- `_handle_new_tokens` records the given server time. -/
lemma handleNewTokens_time (st : MonitorState) (tokens : List String)
    (t : Int) : (handleNewTokens st tokens t).1.saved_token_time = t := by
  by_cases h : tokens = [] <;> simp [handleNewTokens, h]

/-- `_handle_new_tokens` replaces the known set by its union with the
delta (a no-op union when the delta is empty). -/
lemma handleNewTokens_addr (st : MonitorState) (tokens : List String)
    (t : Int) : (handleNewTokens st tokens t).1.saved_token_address
      = st.saved_token_address ∪ tokens.toFinset := by
  by_cases h : tokens = [] <;> simp [handleNewTokens, h]

/-- `_handle_new_tokens` does not touch `_prev_server_time`. -/
lemma handleNewTokens_prev (st : MonitorState) (tokens : List String)
    (t : Int) : (handleNewTokens st tokens t).1.prev_server_time
      = st.prev_server_time := by
  by_cases h : tokens = [] <;> simp [handleNewTokens, h]

/-- The trace of `_handle_new_tokens`: the file write of the updated state
followed by the admin confirmation. -/
lemma handleNewTokens_snd (st : MonitorState) (tokens : List String)
    (t : Int) : (handleNewTokens st tokens t).2
      = [Event.fileWrite t
           ((handleNewTokens st tokens t).1.saved_token_address.sort (· ≤ ·)),
         Event.adminMsg t] := by
  by_cases h : tokens = [] <;> simp [handleNewTokens, saveToLocalDatabase, h]

/-- Unfolding one processed update of the steady-state loop
(`server_time > _prev_server_time`). -/
lemma monitorStep_processed_eq (now : ℚ) (d : ApiData) (st : MonitorState)
    (h : st.prev_server_time < d.updated_at) :
    monitorStep now (FetchResult.ok d) st
      = ((handleNewTokens { st with prev_server_time := d.updated_at }
            (getNewTokens st.saved_token_address d.data).1 d.updated_at).1,
         (getNewTokens st.saved_token_address d.data).2
           ++ (handleNewTokens { st with prev_server_time := d.updated_at }
                (getNewTokens st.saved_token_address d.data).1 d.updated_at).2) := by
  simp [monitorStep, requestData, not_le.mpr h]

/-- Unfolding one no-update iteration of the steady-state loop
(`server_time ≤ _prev_server_time`). -/
lemma monitorStep_noupdate_eq (now : ℚ) (d : ApiData) (st : MonitorState)
    (h : d.updated_at ≤ st.prev_server_time) :
    monitorStep now (FetchResult.ok d) st
      = (st, [Event.sleep
          (if API_UPDATE_INTERVAL - now + (d.updated_at : ℚ) / 1000 < 0 then 1
           else API_UPDATE_INTERVAL - now + (d.updated_at : ℚ) / 1000)]) := by
  simp [monitorStep, requestData, if_pos h]

end PCS

/-- C2 (code bug witnessed): a stale file (`updated_at = 0`, token
`"old"`) read at `now = 10^9` with a fresh snapshot
(`updated_at = 500`, key `"a"`) available.  The forced refresh does run —
its file write of the fresh snapshot is in the trace — but because
`_read_local_database` falls through after calling
`_force_update_local_database`, the in-memory state it returns carries the
stale file's `saved_time = 0` and token set `{"old"}`, not the fresh
snapshot's `500` / `{"a"}` as the claim (and the spec) require. -/
theorem readLocalDatabase_stale_clobbers :
    PCS.readLocalDatabase 1000000000 ⟨0, ["old"]⟩
        [PCS.FetchResult.ok ⟨500, [("a", "ia")]⟩] PCS.initialMonitorState
      = some (⟨0, 0, {"old"}⟩,
          [PCS.Event.fileWrite 500 ["a"], PCS.Event.adminMsg 500]) := by
  norm_num [PCS.readLocalDatabase, PCS.forceUpdateLocalDatabase,
    PCS.requestData, PCS.saveToLocalDatabase, PCS.initialMonitorState,
    Finset.sort_singleton]

/-- C3 counterexample: state as loaded from a file with
`saved_token_time = 100` and known token `"a"` (so `_prev_server_time` is
still `0`), and a fetched snapshot with `updated_at = 50 ≤ 100`.  The
claim says such an iteration sends no admin notification and writes
nothing; the code processes it (because it compares against
`_prev_server_time = 0`, not `saved_token_time`), writing the file and
messaging the admin. -/
theorem monitorStep_stale_savedtime_cex :
    ((⟨50, [("a", "ia")]⟩ : PCS.ApiData).updated_at
        ≤ (⟨0, 100, {"a"}⟩ : PCS.MonitorState).saved_token_time) ∧
    PCS.Event.adminMsg 50
        ∈ (PCS.monitorStep 0 (PCS.FetchResult.ok ⟨50, [("a", "ia")]⟩)
            ⟨0, 100, {"a"}⟩).2 ∧
    PCS.Event.fileWrite 50 ["a"]
        ∈ (PCS.monitorStep 0 (PCS.FetchResult.ok ⟨50, [("a", "ia")]⟩)
            ⟨0, 100, {"a"}⟩).2 := by
  refine ⟨by norm_num, ?_, ?_⟩ <;>
    simp [PCS.monitorStep, PCS.requestData, PCS.getNewTokens,
      PCS.handleNewTokens, PCS.saveToLocalDatabase, Finset.sort_singleton]

/-- C3 (amended): an iteration whose fetched `updated_at` is at most the
loop's `_prev_server_time` (the timestamp of the last processed update —
not the loaded `saved_token_time`) leaves the whole monitor state
unchanged and its only side effect is one sleep: no user or admin
notification and no file write. -/
theorem monitorStep_no_update_frame (now : ℚ) (d : PCS.ApiData)
    (st : PCS.MonitorState) (h : d.updated_at ≤ st.prev_server_time) :
    (PCS.monitorStep now (PCS.FetchResult.ok d) st).1 = st ∧
    ∃ q, (PCS.monitorStep now (PCS.FetchResult.ok d) st).2
      = [PCS.Event.sleep q] := by
  rw [PCS.monitorStep_noupdate_eq now d st h]
  exact ⟨rfl, _, rfl⟩

/-- Witness for `monitorStep_no_update_frame` at `updated_at = 50`,
`_prev_server_time = 100`. -/
theorem monitorStep_no_update_frame_witness :
    (PCS.monitorStep 0 (PCS.FetchResult.ok ⟨50, [("a", "ia")]⟩)
        ⟨100, 100, {"a"}⟩).1 = ⟨100, 100, {"a"}⟩ ∧
    ∃ q, (PCS.monitorStep 0 (PCS.FetchResult.ok ⟨50, [("a", "ia")]⟩)
        ⟨100, 100, {"a"}⟩).2 = [PCS.Event.sleep q] :=
  monitorStep_no_update_frame 0 ⟨50, [("a", "ia")]⟩ ⟨100, 100, {"a"}⟩
    (by norm_num)

/-- C8: in the no-update branch the sleep duration is
`API_UPDATE_INTERVAL − (now − updated_at/1000)` (the fetched timestamp
converted from ms to the seconds of `time.time()`), clamped to exactly 1
when that expression is negative and used unchanged otherwise. -/
theorem monitorStep_sleep_duration (now : ℚ) (d : PCS.ApiData)
    (st : PCS.MonitorState) (h : d.updated_at ≤ st.prev_server_time) :
    (PCS.monitorStep now (PCS.FetchResult.ok d) st).2
      = [PCS.Event.sleep
          (if PCS.API_UPDATE_INTERVAL - (now - (d.updated_at : ℚ) / 1000) < 0
           then 1
           else PCS.API_UPDATE_INTERVAL - (now - (d.updated_at : ℚ) / 1000))] := by
  rw [PCS.monitorStep_noupdate_eq now d st h]
  ring_nf

/-- Witness for `monitorStep_sleep_duration` at `updated_at = 50`,
`_prev_server_time = 100`, `now = 0`. -/
theorem monitorStep_sleep_duration_witness :
    (PCS.monitorStep 0 (PCS.FetchResult.ok ⟨50, []⟩) ⟨100, 0, ∅⟩).2
      = [PCS.Event.sleep
          (if PCS.API_UPDATE_INTERVAL - (0 - ((50 : Int) : ℚ) / 1000) < 0
           then 1
           else PCS.API_UPDATE_INTERVAL - (0 - ((50 : Int) : ℚ) / 1000))] :=
  monitorStep_sleep_duration 0 ⟨50, []⟩ ⟨100, 0, ∅⟩ (by norm_num)


namespace PCS

/-- The user-notification trace of `_get_new_tokens` contains no admin
notification. -/
lemma getNewTokens_snd_filter_admin (saved : Finset String)
    (data : List (String × String)) :
    (getNewTokens saved data).2.filter Event.isAdminMsg = [] := by
  refine List.filter_eq_nil_iff.mpr fun e he hadm => ?_
  obtain ⟨s, rfl⟩ := getNewTokens_snd_userMsg e he
  simp [Event.isAdminMsg] at hadm

/-- A failed fetch at the head of the bootstrap loop logs, sleeps 10 s,
and defers to the remaining fetch outcomes, mutating nothing itself. -/
lemma forceUpdate_cons_error (st : MonitorState) (fr : FetchResult)
    (rest : List FetchResult) (h : (requestData fr).1 = none) :
    forceUpdateLocalDatabase st (fr :: rest)
      = (forceUpdateLocalDatabase st rest).map
          (fun r => (r.1, Event.logError :: Event.sleep 10 :: r.2)) := by
  cases fr with
  | ok d => simp [requestData] at h
  | connectionError =>
    simp only [forceUpdateLocalDatabase, requestData]
    cases forceUpdateLocalDatabase st rest <;> simp
  | httpError c t =>
    simp only [forceUpdateLocalDatabase, requestData]
    cases forceUpdateLocalDatabase st rest <;> simp

/-- A successful fetch at the head of the bootstrap loop seeds the state
from the snapshot and saves it. -/
lemma forceUpdate_cons_ok (st : MonitorState) (d : ApiData)
    (rest : List FetchResult) :
    forceUpdateLocalDatabase st (FetchResult.ok d :: rest)
      = some ({ st with saved_token_time := d.updated_at,
                        saved_token_address := (d.data.map Prod.fst).toFinset },
          [Event.fileWrite d.updated_at
             (((d.data.map Prod.fst).toFinset : Finset String).sort (· ≤ ·)),
           Event.adminMsg d.updated_at]) := by
  simp [forceUpdateLocalDatabase, requestData, saveToLocalDatabase]

end PCS

/-- C6: every processed update (fetched `updated_at` strictly above
`_prev_server_time`) records the new time, writes the full resulting
state (time and token list) to the local database, and sends exactly one
admin notification carrying that update timestamp — whether or not the
delta is empty; with an empty delta the known-token set is unchanged. -/
theorem monitorStep_processed_persists_notifies (now : ℚ) (d : PCS.ApiData)
    (st : PCS.MonitorState) (h : st.prev_server_time < d.updated_at) :
    ((PCS.monitorStep now (PCS.FetchResult.ok d) st).1.saved_token_time
        = d.updated_at) ∧
    (PCS.Event.fileWrite d.updated_at
        (Finset.sort (· ≤ ·)
          ((PCS.monitorStep now (PCS.FetchResult.ok d) st).1.saved_token_address))
      ∈ (PCS.monitorStep now (PCS.FetchResult.ok d) st).2) ∧
    ((PCS.monitorStep now (PCS.FetchResult.ok d) st).2.filter
        PCS.Event.isAdminMsg = [PCS.Event.adminMsg d.updated_at]) ∧
    ((PCS.getNewTokens st.saved_token_address d.data).1 = [] →
      (PCS.monitorStep now (PCS.FetchResult.ok d) st).1.saved_token_address
        = st.saved_token_address) := by
  rw [PCS.monitorStep_processed_eq now d st h]
  refine ⟨PCS.handleNewTokens_time _ _ _, ?_, ?_, ?_⟩
  · rw [PCS.handleNewTokens_snd]
    simp
  · rw [List.filter_append, PCS.getNewTokens_snd_filter_admin,
      PCS.handleNewTokens_snd]
    simp [PCS.Event.isAdminMsg]
  · intro hnil
    rw [PCS.handleNewTokens_addr, hnil]
    simp

/-- Witness for `monitorStep_processed_persists_notifies`: snapshot
`updated_at = 2000` with keys `A` (known) and `C` (new), previous state
`_prev_server_time = 1000`, known set `{A}`. -/
theorem monitorStep_processed_persists_notifies_witness :
    ((PCS.monitorStep 0 (PCS.FetchResult.ok ⟨2000, [("A", "x"), ("C", "y")]⟩)
        ⟨1000, 1000, {"A"}⟩).1.saved_token_time = 2000) ∧
    (PCS.Event.fileWrite 2000
        (Finset.sort (· ≤ ·)
          ((PCS.monitorStep 0 (PCS.FetchResult.ok ⟨2000, [("A", "x"), ("C", "y")]⟩)
            ⟨1000, 1000, {"A"}⟩).1.saved_token_address))
      ∈ (PCS.monitorStep 0 (PCS.FetchResult.ok ⟨2000, [("A", "x"), ("C", "y")]⟩)
          ⟨1000, 1000, {"A"}⟩).2) ∧
    ((PCS.monitorStep 0 (PCS.FetchResult.ok ⟨2000, [("A", "x"), ("C", "y")]⟩)
        ⟨1000, 1000, {"A"}⟩).2.filter PCS.Event.isAdminMsg
      = [PCS.Event.adminMsg 2000]) ∧
    ((PCS.getNewTokens ({"A"} : Finset String) [("A", "x"), ("C", "y")]).1 = [] →
      (PCS.monitorStep 0 (PCS.FetchResult.ok ⟨2000, [("A", "x"), ("C", "y")]⟩)
        ⟨1000, 1000, {"A"}⟩).1.saved_token_address = {"A"}) :=
  monitorStep_processed_persists_notifies 0 ⟨2000, [("A", "x"), ("C", "y")]⟩
    ⟨1000, 1000, {"A"}⟩ (by norm_num)

/-- C4: whenever the forced full refresh of
`_force_update_local_database` completes, the state it installs takes its
`saved_token_time` from the successful snapshot's `updated_at` and its
known-token set from that snapshot's entire key set, that state is written
to the local database immediately, and no per-token user notification
occurs anywhere in the bootstrap trace. -/
theorem forceUpdate_bootstrap_seeds (st : PCS.MonitorState)
    (fetches : List PCS.FetchResult) (r : PCS.MonitorState × List PCS.Event)
    (h : PCS.forceUpdateLocalDatabase st fetches = some r) :
    ∃ d, PCS.FetchResult.ok d ∈ fetches ∧
      r.1.saved_token_time = d.updated_at ∧
      r.1.saved_token_address = (d.data.map Prod.fst).toFinset ∧
      PCS.Event.fileWrite d.updated_at
          (Finset.sort (· ≤ ·) r.1.saved_token_address) ∈ r.2 ∧
      ∀ e ∈ r.2, e.isUserMsg = false := by
  induction fetches generalizing r with
  | nil => exact absurd h (by simp [PCS.forceUpdateLocalDatabase])
  | cons fr rest ih =>
    cases hfr : (PCS.requestData fr).1 with
    | some d =>
      have hok : fr = PCS.FetchResult.ok d := by
        cases fr <;> simp_all [PCS.requestData]
      subst hok
      have hd : d = d := rfl
      rw [PCS.forceUpdate_cons_ok st d rest, Option.some_inj] at h
      subst h
      refine ⟨d, List.mem_cons_self _ _, rfl, rfl, ?_, ?_⟩
      · simp
      · intro e he
        rcases List.mem_cons.mp he with rfl | he
        · rfl
        · rcases List.mem_cons.mp he with rfl | he
          · rfl
          · exact absurd he (List.not_mem_nil e)
    | none =>
      rw [PCS.forceUpdate_cons_error st fr rest hfr] at h
      cases hr : PCS.forceUpdateLocalDatabase st rest with
      | none =>
        rw [hr] at h
        exact absurd h (by simp)
      | some r0 =>
        rw [hr, Option.map_some', Option.some_inj] at h
        subst h
        obtain ⟨d, hd, h1, h2, h3, h4⟩ := ih r0 hr
        refine ⟨d, List.mem_cons_of_mem _ hd, h1, h2, ?_, ?_⟩
        · exact List.mem_cons_of_mem _ (List.mem_cons_of_mem _ h3)
        · intro e he
          rcases List.mem_cons.mp he with rfl | he
          · rfl
          · rcases List.mem_cons.mp he with rfl | he
            · rfl
            · exact h4 e he

/-- Witness for `forceUpdate_bootstrap_seeds`: one failed fetch followed
by a successful snapshot (`updated_at = 1000`, single key `A`). -/
theorem forceUpdate_bootstrap_seeds_witness :
    ∃ d, PCS.FetchResult.ok d
        ∈ [PCS.FetchResult.connectionError,
           PCS.FetchResult.ok ⟨1000, [("A", "x")]⟩] ∧
      ((⟨0, 1000, {"A"}⟩ : PCS.MonitorState),
        ([PCS.Event.logError, PCS.Event.sleep 10,
          PCS.Event.fileWrite 1000 ["A"], PCS.Event.adminMsg 1000]
          : List PCS.Event)).1.saved_token_time = d.updated_at ∧
      ((⟨0, 1000, {"A"}⟩ : PCS.MonitorState),
        ([PCS.Event.logError, PCS.Event.sleep 10,
          PCS.Event.fileWrite 1000 ["A"], PCS.Event.adminMsg 1000]
          : List PCS.Event)).1.saved_token_address
        = (d.data.map Prod.fst).toFinset ∧
      PCS.Event.fileWrite d.updated_at
          (Finset.sort (· ≤ ·)
            ((⟨0, 1000, {"A"}⟩ : PCS.MonitorState),
              ([PCS.Event.logError, PCS.Event.sleep 10,
                PCS.Event.fileWrite 1000 ["A"], PCS.Event.adminMsg 1000]
                : List PCS.Event)).1.saved_token_address)
        ∈ ((⟨0, 1000, {"A"}⟩ : PCS.MonitorState),
            ([PCS.Event.logError, PCS.Event.sleep 10,
              PCS.Event.fileWrite 1000 ["A"], PCS.Event.adminMsg 1000]
              : List PCS.Event)).2 ∧
      ∀ e ∈ ((⟨0, 1000, {"A"}⟩ : PCS.MonitorState),
          ([PCS.Event.logError, PCS.Event.sleep 10,
            PCS.Event.fileWrite 1000 ["A"], PCS.Event.adminMsg 1000]
            : List PCS.Event)).2, e.isUserMsg = false :=
  forceUpdate_bootstrap_seeds (⟨0, 0, ∅⟩ : PCS.MonitorState)
    [PCS.FetchResult.connectionError, PCS.FetchResult.ok ⟨1000, [("A", "x")]⟩]
    (⟨0, 1000, {"A"}⟩,
      [PCS.Event.logError, PCS.Event.sleep 10,
       PCS.Event.fileWrite 1000 ["A"], PCS.Event.adminMsg 1000])
    (by simp [PCS.forceUpdateLocalDatabase, PCS.requestData,
          PCS.saveToLocalDatabase, Finset.sort_singleton])

namespace PCS

/-- An `Error(Network)` (`requests.ConnectionError`) or
`Error(ServerStatus)` (`requests.HTTPError`) fetch outcome. -/
def IsErrorFetch (fr : FetchResult) : Prop :=
  fr = FetchResult.connectionError ∨ ∃ c t, fr = FetchResult.httpError c t

/-- The bootstrap loop never changes `_prev_server_time`. -/
lemma forceUpdate_prev (st : MonitorState) (fetches : List FetchResult)
    (r : MonitorState × List Event)
    (h : forceUpdateLocalDatabase st fetches = some r) :
    r.1.prev_server_time = st.prev_server_time := by
  induction fetches generalizing r with
  | nil => simp [forceUpdateLocalDatabase] at h
  | cons fr rest ih =>
    cases hfr : (requestData fr).1 with
    | some d =>
      have hok : fr = FetchResult.ok d := by
        cases fr <;> simp_all [requestData]
      subst hok
      rw [forceUpdate_cons_ok st d rest, Option.some_inj] at h
      subst h
      rfl
    | none =>
      rw [forceUpdate_cons_error st fr rest hfr] at h
      cases hr : forceUpdateLocalDatabase st rest with
      | none => rw [hr] at h; exact absurd h (by simp)
      | some r0 =>
        rw [hr, Option.map_some', Option.some_inj] at h
        subst h
        exact ih r0 hr

/-- Fields of a state produced by `_read_local_database`: the
`_prev_server_time` of the caller is untouched, and (because of the
fall-through after the staleness branch) `_saved_token_time` and
`_saved_token_address` always come from the file. -/
lemma readLocalDatabase_fields (now : ℚ) (file : LocalFile)
    (fetches : List FetchResult) (st : MonitorState)
    (r : MonitorState × List Event)
    (h : readLocalDatabase now file fetches st = some r) :
    r.1.prev_server_time = st.prev_server_time ∧
    r.1.saved_token_time = file.updated_at ∧
    r.1.saved_token_address = file.data.toFinset := by
  simp only [readLocalDatabase] at h
  by_cases hc : now - (file.updated_at : ℚ) > 86400000
  · rw [if_pos hc] at h
    cases hr : forceUpdateLocalDatabase st fetches with
    | none => rw [hr] at h; exact absurd h (by simp)
    | some r0 =>
      rw [hr, Option.map_some', Option.some_inj] at h
      subst h
      exact ⟨forceUpdate_prev st fetches r0 hr, rfl, rfl⟩
  · rw [if_neg hc, Option.map_some', Option.some_inj] at h
    subst h
    exact ⟨rfl, rfl, rfl⟩

/-- Facts about one processed update of the steady-state loop: the
timestamp is recorded in both `_prev_server_time` and
`_saved_token_time`, exactly one admin notification (carrying it) is
sent, and the resulting state is written to the file. -/
lemma monitorStep_processed_facts (now : ℚ) (d : ApiData)
    (st : MonitorState) (h : st.prev_server_time < d.updated_at) :
    (monitorStep now (FetchResult.ok d) st).1.prev_server_time
        = d.updated_at ∧
    (monitorStep now (FetchResult.ok d) st).1.saved_token_time
        = d.updated_at ∧
    ((monitorStep now (FetchResult.ok d) st).2.filter Event.isAdminMsg
        = [Event.adminMsg d.updated_at]) ∧
    Event.fileWrite d.updated_at
        (Finset.sort (· ≤ ·)
          ((monitorStep now (FetchResult.ok d) st).1.saved_token_address))
      ∈ (monitorStep now (FetchResult.ok d) st).2 := by
  rw [monitorStep_processed_eq now d st h]
  refine ⟨?_, handleNewTokens_time _ _ _, ?_, ?_⟩
  · rw [show ((handleNewTokens { st with prev_server_time := d.updated_at }
        (getNewTokens st.saved_token_address d.data).1 d.updated_at).1,
        (getNewTokens st.saved_token_address d.data).2
          ++ (handleNewTokens { st with prev_server_time := d.updated_at }
              (getNewTokens st.saved_token_address d.data).1 d.updated_at).2).1
      = (handleNewTokens { st with prev_server_time := d.updated_at }
          (getNewTokens st.saved_token_address d.data).1 d.updated_at).1
      from rfl, handleNewTokens_prev]
  · rw [List.filter_append, getNewTokens_snd_filter_admin,
      handleNewTokens_snd]
    simp [Event.isAdminMsg]
  · rw [handleNewTokens_snd]
    simp

end PCS

/-- C7: a fetch failing with a connection error or a non-2xx HTTP error
never terminates the monitor.  In the steady-state loop the step returns
with the state untouched and a trace of exactly one error log and one
1-second sleep — no file write, no notification; at the head of the
bootstrap loop the same errors contribute one error log and one 10-second
sleep and defer to the remaining fetch attempts (indefinite retry),
mutating and persisting nothing themselves. -/
theorem fetch_errors_recovered (now : ℚ) (st : PCS.MonitorState)
    (fr : PCS.FetchResult) (h : PCS.IsErrorFetch fr) :
    PCS.monitorStep now fr st
      = (st, [PCS.Event.logError, PCS.Event.sleep 1]) ∧
    ∀ rest, PCS.forceUpdateLocalDatabase st (fr :: rest)
      = (PCS.forceUpdateLocalDatabase st rest).map
          (fun r => (r.1, PCS.Event.logError :: PCS.Event.sleep 10 :: r.2)) := by
  have hnone : (PCS.requestData fr).1 = none := by
    rcases h with rfl | ⟨c, t, rfl⟩ <;> rfl
  constructor
  · rcases h with rfl | ⟨c, t, rfl⟩ <;> rfl
  · exact fun rest => PCS.forceUpdate_cons_error st fr rest hnone

/-- Witness for `fetch_errors_recovered`: a connection error in the
steady-state loop and an HTTP 500 at the head of a bootstrap. -/
theorem fetch_errors_recovered_witness :
    PCS.monitorStep 0 PCS.FetchResult.connectionError PCS.initialMonitorState
      = (PCS.initialMonitorState,
         [PCS.Event.logError, PCS.Event.sleep 1]) ∧
    PCS.forceUpdateLocalDatabase PCS.initialMonitorState
        (PCS.FetchResult.httpError 500 "error"
          :: [PCS.FetchResult.ok ⟨1, []⟩])
      = (PCS.forceUpdateLocalDatabase PCS.initialMonitorState
          [PCS.FetchResult.ok ⟨1, []⟩]).map
          (fun r => (r.1, PCS.Event.logError :: PCS.Event.sleep 10 :: r.2)) :=
  ⟨(fetch_errors_recovered 0 PCS.initialMonitorState
      PCS.FetchResult.connectionError (Or.inl rfl)).1,
   (fetch_errors_recovered 0 PCS.initialMonitorState
      (PCS.FetchResult.httpError 500 "error")
      (Or.inr ⟨500, "error", rfl⟩)).2 [PCS.FetchResult.ok ⟨1, []⟩]⟩

/-- C9: the known-token set only grows.  Every steady-state iteration
(fetch error, no-update, or processed update) produces a state whose
known set contains the previous one, and a processed update's known set
is exactly the previous set united with the computed delta. -/
theorem known_tokens_monotone (now : ℚ) (fr : PCS.FetchResult)
    (st : PCS.MonitorState) :
    st.saved_token_address
        ⊆ (PCS.monitorStep now fr st).1.saved_token_address ∧
    ∀ d, fr = PCS.FetchResult.ok d → st.prev_server_time < d.updated_at →
      (PCS.monitorStep now fr st).1.saved_token_address
        = st.saved_token_address
          ∪ ((PCS.getNewTokens st.saved_token_address d.data).1).toFinset := by
  constructor
  · cases fr with
    | ok d =>
      by_cases h : d.updated_at ≤ st.prev_server_time
      · rw [PCS.monitorStep_noupdate_eq now d st h]
      · rw [PCS.monitorStep_processed_eq now d st (not_le.mp h)]
        show st.saved_token_address
          ⊆ (PCS.handleNewTokens { st with prev_server_time := d.updated_at }
              (PCS.getNewTokens st.saved_token_address d.data).1
              d.updated_at).1.saved_token_address
        rw [PCS.handleNewTokens_addr]
        exact Finset.subset_union_left
    | connectionError => exact Finset.Subset.refl _
    | httpError c t => exact Finset.Subset.refl _
  · rintro d rfl hlt
    rw [PCS.monitorStep_processed_eq now d st hlt]
    show (PCS.handleNewTokens { st with prev_server_time := d.updated_at }
        (PCS.getNewTokens st.saved_token_address d.data).1
        d.updated_at).1.saved_token_address = _
    rw [PCS.handleNewTokens_addr]

/-- Witness for `known_tokens_monotone`: known set `{A}`, snapshot with
the single fresh key `C`. -/
theorem known_tokens_monotone_witness :
    ({"A"} : Finset String)
        ⊆ (PCS.monitorStep 0 (PCS.FetchResult.ok ⟨2000, [("C", "y")]⟩)
            ⟨1000, 1000, {"A"}⟩).1.saved_token_address ∧
    (PCS.monitorStep 0 (PCS.FetchResult.ok ⟨2000, [("C", "y")]⟩)
        ⟨1000, 1000, {"A"}⟩).1.saved_token_address
      = ({"A"} : Finset String)
          ∪ ((PCS.getNewTokens ({"A"} : Finset String) [("C", "y")]).1).toFinset :=
  ⟨(known_tokens_monotone 0 (PCS.FetchResult.ok ⟨2000, [("C", "y")]⟩)
      ⟨1000, 1000, {"A"}⟩).1,
   (known_tokens_monotone 0 (PCS.FetchResult.ok ⟨2000, [("C", "y")]⟩)
      ⟨1000, 1000, {"A"}⟩).2 ⟨2000, [("C", "y")]⟩ rfl (by norm_num)⟩

/-- C10: the timestamp the steady-state loop compares against is
`_prev_server_time`, set to 0 by `__init__` and not touched when
`_initiate_monitor` loads state from an existing file; hence after any
successful initialization from a file, the first fetch with a positive
`updated_at` is treated as a genuine update — recorded in
`_prev_server_time` and `_saved_token_time`, persisted, admin-notified —
no matter what `saved_time` the file carried. -/
theorem prev_server_time_semantics (now now2 : ℚ) (file : PCS.LocalFile)
    (fetches : List PCS.FetchResult) (r : PCS.MonitorState × List PCS.Event)
    (h : PCS.initiateMonitor now (some file) fetches = some r)
    (d : PCS.ApiData) (hpos : 0 < d.updated_at) :
    r.1.prev_server_time = 0 ∧
    (PCS.monitorStep now2 (PCS.FetchResult.ok d) r.1).1.prev_server_time
        = d.updated_at ∧
    (PCS.monitorStep now2 (PCS.FetchResult.ok d) r.1).1.saved_token_time
        = d.updated_at ∧
    ((PCS.monitorStep now2 (PCS.FetchResult.ok d) r.1).2.filter
        PCS.Event.isAdminMsg = [PCS.Event.adminMsg d.updated_at]) ∧
    PCS.Event.fileWrite d.updated_at
        (Finset.sort (· ≤ ·)
          ((PCS.monitorStep now2 (PCS.FetchResult.ok d) r.1).1.saved_token_address))
      ∈ (PCS.monitorStep now2 (PCS.FetchResult.ok d) r.1).2 := by
  have hprev : r.1.prev_server_time = 0 :=
    (PCS.readLocalDatabase_fields now file fetches PCS.initialMonitorState r h).1
  have hlt : r.1.prev_server_time < d.updated_at := by
    rw [hprev]; exact hpos
  obtain ⟨h1, h2, h3, h4⟩ := PCS.monitorStep_processed_facts now2 d r.1 hlt
  exact ⟨hprev, h1, h2, h3, h4⟩

/-- Witness for `prev_server_time_semantics`: a file with
`saved_time = 5000` and token `A`, loaded fresh at `now = 0`, followed by
a fetch with `updated_at = 40 < 5000` — still processed, because
`_prev_server_time` is 0. -/
theorem prev_server_time_semantics_witness :
    ((⟨0, 5000, {"A"}⟩, ([] : List PCS.Event))
        : PCS.MonitorState × List PCS.Event).1.prev_server_time = 0 ∧
    (PCS.monitorStep 0 (PCS.FetchResult.ok ⟨40, []⟩)
        ((⟨0, 5000, {"A"}⟩, ([] : List PCS.Event))
          : PCS.MonitorState × List PCS.Event).1).1.prev_server_time = 40 ∧
    (PCS.monitorStep 0 (PCS.FetchResult.ok ⟨40, []⟩)
        ((⟨0, 5000, {"A"}⟩, ([] : List PCS.Event))
          : PCS.MonitorState × List PCS.Event).1).1.saved_token_time = 40 ∧
    ((PCS.monitorStep 0 (PCS.FetchResult.ok ⟨40, []⟩)
        ((⟨0, 5000, {"A"}⟩, ([] : List PCS.Event))
          : PCS.MonitorState × List PCS.Event).1).2.filter
        PCS.Event.isAdminMsg = [PCS.Event.adminMsg 40]) ∧
    PCS.Event.fileWrite 40
        (Finset.sort (· ≤ ·)
          ((PCS.monitorStep 0 (PCS.FetchResult.ok ⟨40, []⟩)
            ((⟨0, 5000, {"A"}⟩, ([] : List PCS.Event))
              : PCS.MonitorState × List PCS.Event).1).1.saved_token_address))
      ∈ (PCS.monitorStep 0 (PCS.FetchResult.ok ⟨40, []⟩)
          ((⟨0, 5000, {"A"}⟩, ([] : List PCS.Event))
            : PCS.MonitorState × List PCS.Event).1).2 :=
  prev_server_time_semantics 0 0 ⟨5000, ["A"]⟩ [] (⟨0, 5000, {"A"}⟩, [])
    (by simp [PCS.initiateMonitor, PCS.readLocalDatabase,
          PCS.initialMonitorState]; norm_num)
    ⟨40, []⟩ (by norm_num)

/-- C5: persistence round-trips.  Reading back any file that stores the
state's `saved_time` together with an arbitrary enumeration of its token
set restores exactly that `saved_time` and that set; the file produced by
`_save_to_local_database` is such an enumeration; and saving twice
leaves the same file content as saving once, because each `json.dump` in
mode `w+` fully overwrites the previous content. -/
theorem save_reload_roundtrip (st st0 : PCS.MonitorState) (now : ℚ)
    (fs : Option PCS.LocalFile) (l : List String)
    (hl : l.toFinset = st.saved_token_address)
    (hfresh : ¬ now - (st.saved_token_time : ℚ) > 86400000) :
    (PCS.readLocalDatabase now ⟨st.saved_token_time, l⟩ [] st0
       = some ({ st0 with saved_token_time := st.saved_token_time,
                          saved_token_address := st.saved_token_address }, [])) ∧
    (PCS.runFileSystem fs (PCS.saveToLocalDatabase st)
       = some ⟨st.saved_token_time,
           Finset.sort (· ≤ ·) st.saved_token_address⟩) ∧
    ((Finset.sort (· ≤ ·) st.saved_token_address).toFinset
       = st.saved_token_address) ∧
    (PCS.runFileSystem fs
        (PCS.saveToLocalDatabase st ++ PCS.saveToLocalDatabase st)
       = PCS.runFileSystem fs (PCS.saveToLocalDatabase st)) := by
  refine ⟨?_, rfl, Finset.sort_toFinset _ _, rfl⟩
  simp only [PCS.readLocalDatabase]
  rw [if_neg hfresh, Option.map_some', Option.some_inj]
  rw [hl]

/-- Witness for `save_reload_roundtrip`: state with `saved_time = 5` and
token set `{B, A}`, serialized in the order `["B", "A"]`, read back at
`now = 0` over an empty file system. -/
theorem save_reload_roundtrip_witness :
    (PCS.readLocalDatabase 0 ⟨5, ["B", "A"]⟩ [] ⟨7, 8, ∅⟩
       = some ((⟨7, 5, {"B", "A"}⟩ : PCS.MonitorState),
           ([] : List PCS.Event))) ∧
    (PCS.runFileSystem none
        (PCS.saveToLocalDatabase ⟨1, 5, {"B", "A"}⟩)
       = some ⟨5, Finset.sort (· ≤ ·) ({"B", "A"} : Finset String)⟩) ∧
    ((Finset.sort (· ≤ ·) ({"B", "A"} : Finset String)).toFinset
       = ({"B", "A"} : Finset String)) ∧
    (PCS.runFileSystem none
        (PCS.saveToLocalDatabase ⟨1, 5, {"B", "A"}⟩
          ++ PCS.saveToLocalDatabase ⟨1, 5, {"B", "A"}⟩)
       = PCS.runFileSystem none
           (PCS.saveToLocalDatabase ⟨1, 5, {"B", "A"}⟩)) :=
  save_reload_roundtrip ⟨1, 5, {"B", "A"}⟩ ⟨7, 8, ∅⟩ 0 none ["B", "A"]
    (by simp) (by norm_num)
